import Mathlib

/-!
Verification of the pod-monitoring controller
(`monitoring-go-controller/main.go`) against its natural-language
specification.  The Go program is shallowly embedded: the pure diffing
logic (`getChangeReason`), the event-processing loop of `watchPods`, the
metric bookkeeping of `logEvent` / `updateActivePods`, the reconnect
backoff arithmetic, and the configuration resolution of `main` are
translated into executable Lean definitions, and the spec's claims are
settled as theorems about them.
-/

namespace PodMonitor

/-- Subset of `corev1.ContainerStatus` used by the controller:
name, readiness flag and restart count (an `int32` in Go). -/
structure ContainerStatus where
  name : String
  ready : Bool
  restartCount : Int
  deriving DecidableEq, Repr

/-- Subset of `corev1.PodCondition`: condition type and status strings. -/
structure PodCondition where
  condType : String
  status : String
  deriving DecidableEq, Repr

/-- Subset of `corev1.PodStatus` read by the controller. -/
structure PodStatus where
  phase : String
  podIP : String
  conditions : List PodCondition
  containerStatuses : List ContainerStatus
  deriving DecidableEq, Repr

/-- Subset of `corev1.Pod` read by the controller.  `uid` is the pod's
unique identity, distinct from its reusable `name`. -/
structure Pod where
  name : String
  ns : String
  uid : String
  labels : List (String × String)
  nodeName : String
  status : PodStatus
  deriving DecidableEq, Repr

/-- Rendering of a Go `bool` under the `%v` verb. -/
def boolString (b : Bool) : String := if b then "true" else "false"

/-- Container-status comparison of `getChangeReason` (main.go:189-199):
the loop ranges over the NEW pod's container statuses and compares the
entry at each index with the old list when that index is in range, so
the comparison is positional up to the shorter list.  For each compared
index it first checks the readiness flag, then the restart count.
First argument: new statuses; second argument: old statuses. -/
def containerReasons : List ContainerStatus → List ContainerStatus → List String
  | [], _ => []
  | _ :: _, [] => []
  | c :: cs, o :: os =>
      (if c.ready ≠ o.ready then
        ["Container " ++ c.name ++ " readiness changed to " ++ boolString c.ready]
       else [])
      ++ (if c.restartCount ≠ o.restartCount then
        ["Container " ++ c.name ++ " restart count changed to " ++ toString c.restartCount]
       else [])
      ++ containerReasons cs os

/-- The inner loop of the condition comparison (main.go:204-211): scan the
old condition list and stop at the first condition with the given type. -/
def findCondition : List PodCondition → String → Option PodCondition
  | [], _ => none
  | c :: cs, t => if c.condType = t then some c else findCondition cs t

/-- Condition comparison of `getChangeReason` (main.go:202-216): for each
condition of the NEW pod, look up the first old condition of the same
type; report a status change, or a new condition when none existed. -/
def conditionReasons (olds : List PodCondition) : List PodCondition → List String
  | [] => []
  | c :: cs =>
      (match findCondition olds c.condType with
       | some o =>
          if c.status ≠ o.status then
            ["Condition " ++ c.condType ++ " changed to " ++ c.status]
          else []
       | none => ["New condition " ++ c.condType ++ ": " ++ c.status])
      ++ conditionReasons olds cs

/-- `getChangeReason` (main.go:180-223): phase change, then per-container
changes, then condition changes; the collected reasons are joined with
"; ", and an empty collection falls back to "Metadata or spec updated". -/
def getChangeReason (oldPod newPod : Pod) : String :=
  let reasons : List String :=
    (if oldPod.status.phase ≠ newPod.status.phase then
      ["Phase changed from " ++ oldPod.status.phase ++ " to " ++ newPod.status.phase]
     else [])
    ++ containerReasons newPod.status.containerStatuses oldPod.status.containerStatuses
    ++ conditionReasons oldPod.status.conditions newPod.status.conditions
  if reasons.isEmpty then "Metadata or spec updated"
  else String.intercalate "; " reasons

/-- A placeholder container status, only used as the out-of-range default
of `List.getD` below (never actually selected, as all accesses are in
range of both lists). -/
def defaultContainer : ContainerStatus := ⟨"", false, 0⟩

/-- The differences reported for one compared container index. -/
def containerDiffAt (c o : ContainerStatus) : List String :=
  (if c.ready ≠ o.ready then
    ["Container " ++ c.name ++ " readiness changed to " ++ boolString c.ready]
   else [])
  ++ (if c.restartCount ≠ o.restartCount then
    ["Container " ++ c.name ++ " restart count changed to " ++ toString c.restartCount]
   else [])

/-- Spec-side formulation of the container comparison, following the
spec's words: for each index up to the length of the shorter
container-status list, compare readiness then restart count. -/
def containerReasonsSpec (news olds : List ContainerStatus) : List String :=
  (List.range (min news.length olds.length)).flatMap fun i =>
    containerDiffAt (news.getD i defaultContainer) (olds.getD i defaultContainer)

/-- Spec-side formulation of the condition comparison: for each condition
in the new list, find a condition of the same type in the old list. -/
def conditionReasonsSpec (olds news : List PodCondition) : List String :=
  news.flatMap fun c =>
    match olds.find? (fun o => o.condType == c.condType) with
    | some o =>
        if c.status ≠ o.status then
          ["Condition " ++ c.condType ++ " changed to " ++ c.status]
        else []
    | none => ["New condition " ++ c.condType ++ ": " ++ c.status]

/-- Spec-side formulation of the Lifecycle Differ: the four steps in the
spec's fixed order, concatenated with "; ", with the fallback when steps
1-3 find no difference. -/
def changeReasonSpec (oldPod newPod : Pod) : String :=
  let reasons : List String :=
    (if oldPod.status.phase ≠ newPod.status.phase then
      ["Phase changed from " ++ oldPod.status.phase ++ " to " ++ newPod.status.phase]
     else [])
    ++ containerReasonsSpec newPod.status.containerStatuses oldPod.status.containerStatuses
    ++ conditionReasonsSpec oldPod.status.conditions newPod.status.conditions
  if reasons.isEmpty then "Metadata or spec updated"
  else String.intercalate "; " reasons

/-! ## Association-list model of the Go maps

The Go maps `existingPods` (keyed by pod UID) and `pm.podTracker`
(keyed by pod name) are modelled as association lists with the usual
lookup / upsert / delete operations of a map. -/

/-- Map lookup. -/
def assocLookup {A : Type} : List (String × A) → String → Option A
  | [], _ => none
  | kv :: rest, k => if kv.1 = k then some kv.2 else assocLookup rest k

/-- Map assignment `m[k] = v`: replaces the binding when the key is
present, appends it otherwise. -/
def assocUpsert {A : Type} : List (String × A) → String → A → List (String × A)
  | [], k, v => [(k, v)]
  | kv :: rest, k, v =>
      if kv.1 = k then (k, v) :: rest else kv :: assocUpsert rest k v

/-- Map deletion `delete(m, k)`. -/
def assocRemove {A : Type} : List (String × A) → String → List (String × A)
  | [], _ => []
  | kv :: rest, k =>
      if kv.1 = k then assocRemove rest k else kv :: assocRemove rest k

/-! ## The monitor state and the event-processing step -/

/-- The structured log record built by `watchPods` for each notification
(struct `PodEvent`, main.go:27-38). -/
structure PodEvent where
  eventType : String
  podName : String
  podNamespace : String
  podIP : String
  nodeName : String
  phase : String
  labels : List (String × String)
  message : String
  reason : String
  deriving DecidableEq, Repr

/-- JSON serialization of a `PodEvent` (Go `json.Marshal`), abstracted as
a fallible function: `none` models a marshalling error. -/
def Marshal : Type := PodEvent → Option String

/-- A marshaller that always succeeds, as `json.Marshal` does on the
string-valued fields of `PodEvent` in practice. -/
def marshalTotal : Marshal := fun _ => some "json-record"

/-- Kinds of watch notification (`watch.Added` / `Modified` / `Deleted` /
`Error`). -/
inductive WatchEventType
  | added
  | modified
  | deleted
  | error
  deriving DecidableEq, Repr

/-- A delivered watch notification: its kind and its payload.  `none`
models a payload that is not a `*corev1.Pod` (the failed dynamic type
assertion of main.go:282-286). -/
structure WatchEvent where
  evType : WatchEventType
  object : Option Pod
  deriving DecidableEq, Repr

/-- The in-memory state of the monitor: the `existingPods` snapshot map
of `watchPods` (keyed by UID), the `pm.podTracker` phase map (keyed by
pod NAME, main.go:146-148), the reconnect counter, the Prometheus
metrics (`pod_monitor_active_pods` by phase, `pod_monitor_events_total`
by namespace/type/phase, `pod_monitor_last_event_timestamp` by
namespace, `pod_monitor_watcher_reconnects_total`), the emitted log
lines in order, and an abstract current time used by
`SetToCurrentTime`. -/
structure MonitorState where
  existingPods : List (String × Pod)
  podTracker : List (String × String)
  retryCount : Nat
  activePods : String → Nat
  eventsTotal : String → String → String → Nat
  lastEvent : String → Option Nat
  reconnectsTotal : Nat
  log : List String
  now : Nat

/-- A monitor state with empty maps, zeroed counters and an empty log. -/
def emptyMonitorState : MonitorState :=
  ⟨[], [], 0, fun _ => 0, fun _ _ _ => 0, fun _ => none, 0, [], 0⟩

/-- The number of tracked pods currently in a given phase: one summand
of the `phaseCounts` aggregation of `updateActivePods` (main.go:169-172). -/
def phaseCount (tracker : List (String × String)) (ph : String) : Nat :=
  (tracker.filter fun kv => kv.2 == ph).length

/-- `updateActivePods` (main.go:167-178): re-aggregate the tracker into
per-phase counts and set the `active_pods` gauge for each phase that
appears in the aggregation.  A phase with no tracked pod is absent from
`phaseCounts`, so its gauge is left at its previous value. -/
def updateActivePods (tracker : List (String × String)) (g : String → Nat) :
    String → Nat :=
  fun ph => if 0 < phaseCount tracker ph then phaseCount tracker ph else g ph

/-- The human-readable summary line of `logEvent` (main.go:154-164): one
line for ADDED / DELETED / MODIFIED, nothing for other event types. -/
def humanLines (ev : PodEvent) : List String :=
  if ev.eventType = "ADDED" then
    ["NEW POD CREATED: " ++ ev.podName ++ " in namespace " ++ ev.podNamespace
      ++ " (Phase: " ++ ev.phase ++ ", Node: " ++ ev.nodeName ++ ")"]
  else if ev.eventType = "DELETED" then
    ["POD DELETED: " ++ ev.podName ++ " in namespace " ++ ev.podNamespace]
  else if ev.eventType = "MODIFIED" then
    ["POD UPDATED: " ++ ev.podName ++ " in namespace " ++ ev.podNamespace
      ++ " (Phase: " ++ ev.phase ++ ", Reason: " ++ ev.reason ++ ")"]
  else []

/-- `logEvent` (main.go:131-165).  On marshal failure it logs the failure
and returns at once, touching nothing else.  Otherwise it writes the
structured record, bumps `events_total` and `last_event_timestamp`,
updates the name-keyed phase tracker (delete on DELETED, upsert
otherwise), recomputes the `active_pods` gauges, and finally writes the
human-readable line. -/
def logEvent (marshal : Marshal) (s : MonitorState) (ev : PodEvent) :
    MonitorState :=
  match marshal ev with
  | none => { s with log := s.log ++ ["Failed to marshal event to JSON"] }
  | some line =>
      let tracker :=
        if ev.eventType = "DELETED" then assocRemove s.podTracker ev.podName
        else assocUpsert s.podTracker ev.podName ev.phase
      { s with
        log := s.log ++ [line] ++ humanLines ev
        eventsTotal := fun a b c =>
          if a = ev.podNamespace ∧ b = ev.eventType ∧ c = ev.phase then
            s.eventsTotal a b c + 1
          else s.eventsTotal a b c
        lastEvent := fun a =>
          if a = ev.podNamespace then some s.now else s.lastEvent a
        podTracker := tracker
        activePods := updateActivePods tracker s.activePods }

/-- The `PodEvent` built from a delivered pod notification
(main.go:288-297), with the message and reason filled in by the
per-kind branch. -/
def mkPodEvent (etype : String) (p : Pod) (message reason : String) : PodEvent :=
  ⟨etype, p.name, p.ns, p.status.podIP, p.nodeName, p.status.phase, p.labels,
    message, reason⟩

/-- Processing of one DELIVERED notification by the watch loop
(main.go:274-325).  The reconnect counter is reset to zero first
(main.go:275), before the error-kind check; ERROR events and non-pod
payloads are then logged and skipped; ADDED inserts an unseen pod and
ignores an already-known one; DELETED logs and removes the identity;
MODIFIED diffs against the stored snapshot (or reports a new pod) and
upserts it. -/
def processDelivered (marshal : Marshal) (s : MonitorState) (e : WatchEvent) :
    MonitorState :=
  let s0 : MonitorState := { s with retryCount := 0 }
  if e.evType = WatchEventType.error then
    { s0 with log := s0.log ++ ["Watch error"] }
  else
    match e.object with
    | none => { s0 with log := s0.log ++ ["Unexpected object type"] }
    | some p =>
      match e.evType with
      | WatchEventType.added =>
          if (assocLookup s0.existingPods p.uid).isSome then s0
          else
            let s1 := logEvent marshal s0 (mkPodEvent "ADDED" p "New pod created" "")
            { s1 with existingPods := assocUpsert s1.existingPods p.uid p }
      | WatchEventType.deleted =>
          let s1 := logEvent marshal s0 (mkPodEvent "DELETED" p "Pod deleted" "")
          { s1 with existingPods := assocRemove s1.existingPods p.uid }
      | WatchEventType.modified =>
          (match assocLookup s0.existingPods p.uid with
           | some oldPod =>
              let s1 := logEvent marshal s0
                (mkPodEvent "MODIFIED" p "Pod updated" (getChangeReason oldPod p))
              { s1 with existingPods := assocUpsert s1.existingPods p.uid p }
           | none =>
              let s1 := logEvent marshal s0
                (mkPodEvent "MODIFIED" p "New pod detected during watch" "")
              { s1 with existingPods := assocUpsert s1.existingPods p.uid p })
      | WatchEventType.error => s0

/-- Sequential processing of a list of delivered notifications. -/
def processEvents (marshal : Marshal) (s : MonitorState)
    (evs : List WatchEvent) : MonitorState :=
  evs.foldl (processDelivered marshal) s

/-! ## Reconnect backoff, session opening and configuration -/

/-- Outcome of a stream closure: either a fatal error carrying the final
counter value, or a backoff of the given number of seconds with the new
counter value, followed by a fresh session (recursive `watchPods` call,
main.go:271). -/
inductive CloseOutcome
  | fatal (retryCount : Nat)
  | backoff (waitSeconds : Nat) (retryCount : Nat)
  deriving DecidableEq, Repr

/-- The channel-closed branch of `watchPods` (main.go:259-272): increment
the counter (and the `watcher_reconnects_total` metric); if it has
reached `maxRetries`, return an error without sleeping; otherwise sleep
`retryCount * retryCount` seconds and re-open the session. -/
def onStreamClose (retryCount maxRetries : Nat) : CloseOutcome :=
  let r := retryCount + 1
  if maxRetries ≤ r then CloseOutcome.fatal r
  else CloseOutcome.backoff (r * r) r

/-- Subset of `metav1.ListOptions` constructed by `watchPods`: the field
selector and the resource version (zero values are empty strings). -/
structure ListOptions where
  fieldSelector : String
  resourceVersion : String
  deriving DecidableEq, Repr

/-- The string rendering of `fields.Everything()`, the empty field
selector: it selects everything and prints as the empty string. -/
def fieldsEverythingString : String := ""

/-- The `listOptions` value of `watchPods` (main.go:226-231): when a
namespace is configured the options carry the everything-selector,
otherwise they stay at their zero value; neither branch sets a resource
version. -/
def sessionListOptions (ns : String) : ListOptions :=
  if ns ≠ "" then ⟨fieldsEverythingString, ""⟩ else ⟨"", ""⟩

/-- The result of the initial List call: the pod items and the
collection's resource version (`pods.ResourceVersion`). -/
structure ListResult where
  items : List Pod
  resourceVersion : String
  deriving DecidableEq, Repr

/-- The `existingPods` snapshot map seeded from the initial List
(main.go:234-244): every listed pod is stored under its UID. -/
def seedSnapshot (items : List Pod) : List (String × Pod) :=
  items.foldl (fun m p => assocUpsert m p.uid p) []

/-- The options passed to the Watch call (main.go:249): `watchPods`
passes the SAME `listOptions` value it used for the List; the resource
version returned by the List result is never copied into them. -/
def watchOptions (ns : String) (lr : ListResult) : ListOptions :=
  sessionListOptions ns

/-- Namespace resolution of `main` (main.go:388-391): the `NAMESPACE`
environment variable, with the empty value replaced by the literal
default "devops-case-study".  `env` models `os.Getenv` (absent
variables read as ""). -/
def resolveNamespace (env : String → String) : String :=
  if env "NAMESPACE" = "" then "devops-case-study" else env "NAMESPACE"

/-- Metrics bind address resolution of `startMetricsServer`
(main.go:339-342): the `METRICS_ADDR` environment variable, defaulting
to ":8080" when empty. -/
def resolveMetricsAddr (env : String → String) : String :=
  if env "METRICS_ADDR" = "" then ":8080" else env "METRICS_ADDR"

/-- The retry ceiling set by `NewPodMonitor` (main.go:125): the literal
10, read from no environment variable. -/
def monitorMaxRetries : Nat := 10

/-! ## Which events touch a given identity -/

/-- Whether a delivered notification upserts the snapshot-map entry of
the given UID: an ADDED or MODIFIED event whose payload is a pod with
that UID. -/
def touchUpsert (e : WatchEvent) (u : String) : Bool :=
  match e.object with
  | some q =>
      (e.evType == WatchEventType.added || e.evType == WatchEventType.modified)
        && q.uid == u
  | none => false

/-- Whether a delivered notification deletes the snapshot-map entry of
the given UID: a DELETED event whose payload is a pod with that UID. -/
def touchDelete (e : WatchEvent) (u : String) : Bool :=
  match e.object with
  | some q => e.evType == WatchEventType.deleted && q.uid == u
  | none => false

/-! ## Lemmas about the association-list map operations -/

theorem assocLookup_upsert_self {A : Type} (l : List (String × A)) (k : String)
    (v : A) : assocLookup (assocUpsert l k v) k = some v := by
  induction l with
  | nil => simp [assocUpsert, assocLookup]
  | cons kv rest ih =>
      by_cases h : kv.1 = k
      · simp [assocUpsert, if_pos h, assocLookup]
      · simp only [assocUpsert, if_neg h, assocLookup, if_neg h, ih]

theorem assocLookup_upsert_other {A : Type} (l : List (String × A))
    (k k' : String) (v : A) (h : k' ≠ k) :
    assocLookup (assocUpsert l k v) k' = assocLookup l k' := by
  have h2 : ¬(k = k') := fun hh => h hh.symm
  induction l with
  | nil => simp only [assocUpsert, assocLookup, if_neg h2]
  | cons kv rest ih =>
      by_cases hk : kv.1 = k
      · have hk2 : ¬(kv.1 = k') := by rw [hk]; exact h2
        simp only [assocUpsert, if_pos hk, assocLookup, if_neg h2, if_neg hk2]
      · simp only [assocUpsert, if_neg hk, assocLookup, ih]

theorem assocLookup_remove_self {A : Type} (l : List (String × A))
    (k : String) : assocLookup (assocRemove l k) k = none := by
  induction l with
  | nil => simp [assocRemove, assocLookup]
  | cons kv rest ih =>
      by_cases h : kv.1 = k
      · simp only [assocRemove, if_pos h, ih]
      · simp only [assocRemove, if_neg h, assocLookup, if_neg h, ih]

theorem assocLookup_remove_other {A : Type} (l : List (String × A))
    (k k' : String) (h : k' ≠ k) :
    assocLookup (assocRemove l k) k' = assocLookup l k' := by
  induction l with
  | nil => simp [assocRemove]
  | cons kv rest ih =>
      by_cases hk : kv.1 = k
      · have hk2 : ¬(kv.1 = k') := by rw [hk]; exact fun hh => h hh.symm
        simp only [assocRemove, if_pos hk, assocLookup, if_neg hk2, ih]
      · simp only [assocRemove, if_neg hk, assocLookup, ih]

theorem assocLookup_upsert_isSome {A : Type} (l : List (String × A))
    (k : String) (v : A) : (assocLookup (assocUpsert l k v) k).isSome = true := by
  rw [assocLookup_upsert_self]; rfl

/-! ## Frame lemmas for the emitter and the step function -/

theorem logEvent_existingPods (marshal : Marshal) (s : MonitorState)
    (ev : PodEvent) : (logEvent marshal s ev).existingPods = s.existingPods := by
  unfold logEvent
  cases marshal ev <;> rfl

theorem logEvent_retryCount (marshal : Marshal) (s : MonitorState)
    (ev : PodEvent) : (logEvent marshal s ev).retryCount = s.retryCount := by
  unfold logEvent
  cases marshal ev <;> rfl

/-- How one delivered notification transforms the snapshot map,
expressed directly on the map: ERROR and non-pod events leave it alone,
ADDED inserts unseen identities only, DELETED removes the identity,
MODIFIED upserts it. -/
def snapshotStep (pods : List (String × Pod)) (e : WatchEvent) :
    List (String × Pod) :=
  match e.object with
  | none => pods
  | some p =>
    match e.evType with
    | WatchEventType.error => pods
    | WatchEventType.added =>
        if (assocLookup pods p.uid).isSome then pods
        else assocUpsert pods p.uid p
    | WatchEventType.deleted => assocRemove pods p.uid
    | WatchEventType.modified => assocUpsert pods p.uid p

theorem processDelivered_existingPods (marshal : Marshal) (s : MonitorState)
    (e : WatchEvent) :
    (processDelivered marshal s e).existingPods =
      snapshotStep s.existingPods e := by
  obtain ⟨t, ob⟩ := e
  cases t <;> cases ob <;>
    simp [processDelivered, snapshotStep, logEvent_existingPods]
  case added.some p =>
      by_cases hl : (assocLookup s.existingPods p.uid).isSome = true <;>
        simp [hl, logEvent_existingPods]
  case modified.some p =>
      cases hl : assocLookup s.existingPods p.uid <;>
        simp [hl, logEvent_existingPods]

theorem snapshotStep_presence (pods : List (String × Pod)) (e : WatchEvent)
    (u : String) (h : touchDelete e u = false)
    (hs : (assocLookup pods u).isSome = true) :
    (assocLookup (snapshotStep pods e) u).isSome = true := by
  obtain ⟨t, ob⟩ := e
  cases t <;> cases ob <;> simp only [snapshotStep, touchDelete] at h ⊢ <;>
    try exact hs
  case added.some p =>
      by_cases hl : (assocLookup pods p.uid).isSome = true
      · simp only [hl, if_pos rfl]
        exact hs
      · rw [if_neg (by simpa using hl)]
        by_cases hpu : p.uid = u
        · rw [hpu, assocLookup_upsert_self]
          rfl
        · rw [assocLookup_upsert_other _ _ _ _ (fun hh => hpu hh.symm)]
          exact hs
  case modified.some p =>
      by_cases hpu : p.uid = u
      · rw [hpu, assocLookup_upsert_self]
        rfl
      · rw [assocLookup_upsert_other _ _ _ _ (fun hh => hpu hh.symm)]
        exact hs
  case deleted.some p =>
      have hpu : ¬(p.uid = u) := by simpa using h
      rw [assocLookup_remove_other _ _ _ (fun hh => hpu hh.symm)]
      exact hs

theorem snapshotStep_absence (pods : List (String × Pod)) (e : WatchEvent)
    (u : String) (h : touchUpsert e u = false)
    (hs : assocLookup pods u = none) :
    assocLookup (snapshotStep pods e) u = none := by
  obtain ⟨t, ob⟩ := e
  cases t <;> cases ob <;> simp only [snapshotStep, touchUpsert] at h ⊢ <;>
    try exact hs
  case added.some p =>
      have hpu : ¬(p.uid = u) := by simpa using h
      by_cases hl : (assocLookup pods p.uid).isSome = true
      · simp only [hl, if_pos rfl]
        exact hs
      · rw [if_neg (by simpa using hl)]
        rw [assocLookup_upsert_other _ _ _ _ (fun hh => hpu hh.symm)]
        exact hs
  case modified.some p =>
      have hpu : ¬(p.uid = u) := by simpa using h
      rw [assocLookup_upsert_other _ _ _ _ (fun hh => hpu hh.symm)]
      exact hs
  case deleted.some p =>
      by_cases hpu : p.uid = u
      · rw [hpu, assocLookup_remove_self]
      · rw [assocLookup_remove_other _ _ _ (fun hh => hpu hh.symm)]
        exact hs

theorem processDelivered_presence (marshal : Marshal) (s : MonitorState)
    (e : WatchEvent) (u : String) (h : touchDelete e u = false)
    (hs : (assocLookup s.existingPods u).isSome = true) :
    (assocLookup (processDelivered marshal s e).existingPods u).isSome = true := by
  rw [processDelivered_existingPods]
  exact snapshotStep_presence s.existingPods e u h hs

theorem processDelivered_absence (marshal : Marshal) (s : MonitorState)
    (e : WatchEvent) (u : String) (h : touchUpsert e u = false)
    (hs : assocLookup s.existingPods u = none) :
    assocLookup (processDelivered marshal s e).existingPods u = none := by
  rw [processDelivered_existingPods]
  exact snapshotStep_absence s.existingPods e u h hs

theorem processEvents_presence (marshal : Marshal) (s : MonitorState)
    (evs : List WatchEvent) (u : String)
    (h : ∀ e ∈ evs, touchDelete e u = false)
    (hs : (assocLookup s.existingPods u).isSome = true) :
    (assocLookup (processEvents marshal s evs).existingPods u).isSome = true := by
  induction evs generalizing s with
  | nil => exact hs
  | cons e rest ih =>
      exact ih (processDelivered marshal s e)
        (fun x hx => h x (List.mem_cons_of_mem _ hx))
        (processDelivered_presence marshal s e u (h e (List.mem_cons_self _ _)) hs)

theorem processEvents_absence (marshal : Marshal) (s : MonitorState)
    (evs : List WatchEvent) (u : String)
    (h : ∀ e ∈ evs, touchUpsert e u = false)
    (hs : assocLookup s.existingPods u = none) :
    assocLookup (processEvents marshal s evs).existingPods u = none := by
  induction evs generalizing s with
  | nil => exact hs
  | cons e rest ih =>
      exact ih (processDelivered marshal s e)
        (fun x hx => h x (List.mem_cons_of_mem _ hx))
        (processDelivered_absence marshal s e u (h e (List.mem_cons_self _ _)) hs)

/-! ## Equivalence of the differ with its spec-side formulation -/

theorem containerReasonsSpec_cons (c o : ContainerStatus)
    (cs os : List ContainerStatus) :
    containerReasonsSpec (c :: cs) (o :: os) =
      containerDiffAt c o ++ containerReasonsSpec cs os := by
  unfold containerReasonsSpec
  rw [List.length_cons, List.length_cons, Nat.succ_min_succ,
    List.range_succ_eq_map]
  simp [List.flatMap_cons, List.flatMap_map]

theorem containerReasons_eq_spec (news olds : List ContainerStatus) :
    containerReasons news olds = containerReasonsSpec news olds := by
  induction news generalizing olds with
  | nil => simp [containerReasons, containerReasonsSpec]
  | cons c cs ih =>
      cases olds with
      | nil => simp [containerReasons, containerReasonsSpec]
      | cons o os =>
          rw [containerReasonsSpec_cons]
          simp only [containerReasons, containerDiffAt, ih os,
            List.append_assoc]

theorem findCondition_eq_findP (olds : List PodCondition) (t : String) :
    findCondition olds t = olds.find? (fun o => o.condType == t) := by
  induction olds with
  | nil => rfl
  | cons c cs ih =>
      by_cases h : c.condType = t
      · rw [List.find?_cons_of_pos _ (by simpa using h)]
        simp [findCondition, h]
      · rw [List.find?_cons_of_neg _ (by simpa using h)]
        simp [findCondition, h, ih]

theorem conditionReasons_eq_spec (olds news : List PodCondition) :
    conditionReasons olds news = conditionReasonsSpec olds news := by
  induction news with
  | nil => rfl
  | cons c cs ih =>
      simp only [conditionReasons, conditionReasonsSpec, List.flatMap_cons,
        findCondition_eq_findP, ih]

theorem getChangeReason_eq_spec (oldPod newPod : Pod) :
    getChangeReason oldPod newPod = changeReasonSpec oldPod newPod := by
  simp only [getChangeReason, changeReasonSpec, containerReasons_eq_spec,
    conditionReasons_eq_spec]

/-! ## Concrete sample data for witnesses and counterexamples -/

/-- A sample pod with UID "u1". -/
def podA : Pod :=
  ⟨"pod-a", "default", "u1", [], "node1", ⟨"Running", "10.0.0.1", [], []⟩⟩

/-- A sample pod with UID "u2". -/
def podB : Pod :=
  ⟨"pod-b", "default", "u2", [], "node1", ⟨"Pending", "", [], []⟩⟩

/-- A pod named "shared-name" with UID "uid-1". -/
def podN1 : Pod :=
  ⟨"shared-name", "default", "uid-1", [], "node1", ⟨"Running", "", [], []⟩⟩

/-- A distinct pod reusing the name "shared-name", with UID "uid-2". -/
def podN2 : Pod :=
  ⟨"shared-name", "default", "uid-2", [], "node1", ⟨"Pending", "", [], []⟩⟩

/-- The old Scenario B snapshot: phase Pending, container "app" not
ready. -/
def scenarioBOld : Pod :=
  ⟨"p1", "default", "uB", [], "node1",
    ⟨"Pending", "", [], [⟨"app", false, 0⟩]⟩⟩

/-- The new Scenario B snapshot: phase Running, container "app" ready. -/
def scenarioBNew : Pod :=
  ⟨"p1", "default", "uB", [], "node1",
    ⟨"Running", "10.0.0.2", [], [⟨"app", true, 0⟩]⟩⟩

/-! ## The claims -/

/-- Claim C1: `getChangeReason` returns the "; "-joined concatenation of
all applicable differences in the fixed order phase change, then
per-container readiness and restart-count changes compared positionally
up to the shorter container-status list, then condition changes and new
conditions, with the fallback "Metadata or spec updated" exactly when
steps 1-3 find nothing; and on Scenario B (Pending to Running with
container "app" readiness flipping to true) it yields the stated
string. -/
theorem claim_differ_algorithm :
    (∀ oldPod newPod : Pod,
      getChangeReason oldPod newPod = changeReasonSpec oldPod newPod) ∧
    getChangeReason scenarioBOld scenarioBNew =
      "Phase changed from Pending to Running; Container app readiness changed to true" :=
  ⟨getChangeReason_eq_spec, by decide⟩

/-- Claim C2 as stated is false at its own boundary: with the default
ceiling of 10, the 10th consecutive stream closure does NOT wait 100
seconds and re-open; the counter is incremented to 10, which reaches the
ceiling, and `watchPods` returns an error before any sleep. -/
theorem claim_backoff_counterexample :
    onStreamClose 9 10 = CloseOutcome.fatal 10 ∧
    onStreamClose 9 10 ≠ CloseOutcome.backoff 100 10 := by
  constructor <;> decide

/-- Claim C2 (amended): the Nth consecutive stream closure without an
intervening delivered notification increments the reconnect counter to
N; for N below the ceiling of 10 it waits exactly N*N seconds before
re-opening the session, while the 10th closure is fatal (`watchPods`
returns an error without sleeping or retrying). -/
theorem claim_backoff_quadratic (n : Nat) (h1 : 1 ≤ n) (h2 : n < 10) :
    onStreamClose (n - 1) 10 = CloseOutcome.backoff (n * n) n ∧
    onStreamClose 9 10 = CloseOutcome.fatal 10 := by
  constructor
  · have hn : n - 1 + 1 = n := by omega
    simp only [onStreamClose, hn]
    rw [if_neg (by omega)]
  · decide

/-- Witness for the amended Claim C2 at N = 3: the 3rd consecutive
closure waits 9 seconds. -/
theorem claim_backoff_quadratic_witness :
    onStreamClose 2 10 = CloseOutcome.backoff 9 3 ∧
    onStreamClose 9 10 = CloseOutcome.fatal 10 :=
  claim_backoff_quadratic 3 (by decide) (by decide)

/-- Claim C3 as stated is false: the watch loop resets the reconnect
counter to zero on EVERY delivered notification, before the error-kind
check, so an ERROR-kind event does reset the counter.  Concretely, from
a state with counter 3, processing an ERROR event leaves the counter at
0, not 3. -/
theorem claim_error_reset_counterexample :
    (processDelivered marshalTotal
      { emptyMonitorState with retryCount := 3 }
      ⟨WatchEventType.error, none⟩).retryCount = 0 ∧
    (processDelivered marshalTotal
      { emptyMonitorState with retryCount := 3 }
      ⟨WatchEventType.error, none⟩).retryCount ≠ 3 := by
  constructor <;> decide

/-- Claim C3 (amended): an ERROR-kind notification, or one whose payload
is not a Pod, is logged (exactly one line) and skipped: the snapshot
map, the phase tracker and all metrics are unchanged and it does not
count toward the reconnect ceiling; however the reconnect counter is
reset to zero (the reset on any delivered notification happens before
the error-kind check), not left unchanged. -/
theorem claim_error_event_skipped (marshal : Marshal) (s : MonitorState)
    (e : WatchEvent)
    (h : e.evType = WatchEventType.error ∨ e.object = none) :
    (processDelivered marshal s e).existingPods = s.existingPods ∧
    (processDelivered marshal s e).podTracker = s.podTracker ∧
    (processDelivered marshal s e).activePods = s.activePods ∧
    (processDelivered marshal s e).eventsTotal = s.eventsTotal ∧
    (processDelivered marshal s e).lastEvent = s.lastEvent ∧
    (processDelivered marshal s e).log.length = s.log.length + 1 ∧
    (processDelivered marshal s e).retryCount = 0 := by
  by_cases ht : e.evType = WatchEventType.error
  · simp [processDelivered, ht]
  · have ho : e.object = none := h.resolve_left ht
    simp [processDelivered, ht, ho]

/-- Witness for the amended Claim C3: an ERROR event on the empty state. -/
theorem claim_error_event_skipped_witness :
    (processDelivered marshalTotal emptyMonitorState
      ⟨WatchEventType.error, none⟩).existingPods = emptyMonitorState.existingPods ∧
    (processDelivered marshalTotal emptyMonitorState
      ⟨WatchEventType.error, none⟩).podTracker = emptyMonitorState.podTracker ∧
    (processDelivered marshalTotal emptyMonitorState
      ⟨WatchEventType.error, none⟩).activePods = emptyMonitorState.activePods ∧
    (processDelivered marshalTotal emptyMonitorState
      ⟨WatchEventType.error, none⟩).eventsTotal = emptyMonitorState.eventsTotal ∧
    (processDelivered marshalTotal emptyMonitorState
      ⟨WatchEventType.error, none⟩).lastEvent = emptyMonitorState.lastEvent ∧
    (processDelivered marshalTotal emptyMonitorState
      ⟨WatchEventType.error, none⟩).log.length = emptyMonitorState.log.length + 1 ∧
    (processDelivered marshalTotal emptyMonitorState
      ⟨WatchEventType.error, none⟩).retryCount = 0 :=
  claim_error_event_skipped marshalTotal emptyMonitorState
    ⟨WatchEventType.error, none⟩ (Or.inl rfl)

/-- Claim C4: for any processed sequence of notifications, the snapshot
map contains no entry for an identity strictly after its DELETED
notification has been processed (as long as no later ADDED or MODIFIED
re-introduces that identity), and always contains an entry strictly
after its ADDED notification has been processed (as long as no later
DELETED removes it). -/
theorem claim_snapshot_lifecycle (marshal : Marshal) (s : MonitorState)
    (p : Pod) (evs : List WatchEvent) :
    ((∀ e ∈ evs, touchUpsert e p.uid = false) →
      assocLookup (processEvents marshal
        (processDelivered marshal s ⟨WatchEventType.deleted, some p⟩)
        evs).existingPods p.uid = none) ∧
    ((∀ e ∈ evs, touchDelete e p.uid = false) →
      (assocLookup (processEvents marshal
        (processDelivered marshal s ⟨WatchEventType.added, some p⟩)
        evs).existingPods p.uid).isSome = true) := by
  constructor
  · intro h
    apply processEvents_absence _ _ _ _ h
    rw [processDelivered_existingPods]
    exact assocLookup_remove_self _ _
  · intro h
    apply processEvents_presence _ _ _ _ h
    rw [processDelivered_existingPods]
    by_cases hl : (assocLookup s.existingPods p.uid).isSome = true
    · simp [snapshotStep, hl]
    · simp [snapshotStep, hl, assocLookup_upsert_self]

/-- Witness for Claim C4: pod "u1" deleted then an unrelated add keeps it
absent, and pod "u1" added then an unrelated add keeps it present. -/
theorem claim_snapshot_lifecycle_witness :
    (assocLookup (processEvents marshalTotal
      (processDelivered marshalTotal emptyMonitorState
        ⟨WatchEventType.deleted, some podA⟩)
      [⟨WatchEventType.added, some podB⟩]).existingPods podA.uid = none) ∧
    (assocLookup (processEvents marshalTotal
      (processDelivered marshalTotal emptyMonitorState
        ⟨WatchEventType.added, some podA⟩)
      [⟨WatchEventType.added, some podB⟩]).existingPods podA.uid).isSome = true :=
  ⟨(claim_snapshot_lifecycle marshalTotal emptyMonitorState podA
      [⟨WatchEventType.added, some podB⟩]).1 (by decide),
   (claim_snapshot_lifecycle marshalTotal emptyMonitorState podA
      [⟨WatchEventType.added, some podB⟩]).2 (by decide)⟩

/-- Claim C5 is right about the code's intent but the code diverges: when
the deleted pod was the ONLY pod in its phase, the full re-aggregation
of `updateActivePods` contains no entry for that phase any more, so the
`active_pods` gauge for the pod's last-known phase is never written and
keeps its previous value 1 instead of decrementing to 0 — contradicting
the gauge's own help text ("Number of active pods being monitored").
The identity is, as claimed, absent from the snapshot map (and the
phase tracker) afterwards. -/
theorem claim_delete_gauge_stale :
    ((processDelivered marshalTotal
        { emptyMonitorState with
            existingPods := [("u1", podA)]
            podTracker := [("pod-a", "Running")]
            activePods := fun ph => if ph = "Running" then 1 else 0 }
        ⟨WatchEventType.deleted, some podA⟩).podTracker = []) ∧
    (assocLookup (processDelivered marshalTotal
        { emptyMonitorState with
            existingPods := [("u1", podA)]
            podTracker := [("pod-a", "Running")]
            activePods := fun ph => if ph = "Running" then 1 else 0 }
        ⟨WatchEventType.deleted, some podA⟩).existingPods "u1" = none) ∧
    ((processDelivered marshalTotal
        { emptyMonitorState with
            existingPods := [("u1", podA)]
            podTracker := [("pod-a", "Running")]
            activePods := fun ph => if ph = "Running" then 1 else 0 }
        ⟨WatchEventType.deleted, some podA⟩).activePods "Running" = 1) := by
  refine ⟨by decide, by decide, by decide⟩

/-- Claim C6 as stated is false: the active-pod-phase map `podTracker`
is keyed by pod NAME, not UID.  Two pods sharing the name "shared-name"
with distinct UIDs produce ONE tracker entry after both are added (not
two distinct entries), and a DELETE for the first identity removes the
shared entry — the second pod's entry does not remain in place. -/
theorem claim_tracker_uid_counterexample :
    ((processEvents marshalTotal emptyMonitorState
        [⟨WatchEventType.added, some podN1⟩,
         ⟨WatchEventType.added, some podN2⟩]).podTracker
      = [("shared-name", "Pending")]) ∧
    ((processEvents marshalTotal emptyMonitorState
        [⟨WatchEventType.added, some podN1⟩,
         ⟨WatchEventType.added, some podN2⟩]).podTracker.length ≠ 2) ∧
    ((processDelivered marshalTotal
        (processEvents marshalTotal emptyMonitorState
          [⟨WatchEventType.added, some podN1⟩,
           ⟨WatchEventType.added, some podN2⟩])
        ⟨WatchEventType.deleted, some podN1⟩).podTracker = []) := by
  refine ⟨by decide, by decide, by decide⟩

/-- Claim C6 (amended): the active-pod-phase map is keyed by pod name.
For any two pods sharing a name but with different UIDs, adding both
yields a single shared tracker entry holding the phase of the
most-recently processed pod, while the snapshot map (keyed by UID) holds
both identities; and a DELETE for one of them removes the shared tracker
entry entirely. -/
theorem claim_tracker_keyed_by_name (p q : Pod)
    (hname : p.name = q.name) (huid : p.uid ≠ q.uid) :
    ((processEvents marshalTotal emptyMonitorState
        [⟨WatchEventType.added, some p⟩,
         ⟨WatchEventType.added, some q⟩]).podTracker
      = [(q.name, q.status.phase)]) ∧
    ((assocLookup (processEvents marshalTotal emptyMonitorState
        [⟨WatchEventType.added, some p⟩,
         ⟨WatchEventType.added, some q⟩]).existingPods p.uid).isSome = true) ∧
    ((assocLookup (processEvents marshalTotal emptyMonitorState
        [⟨WatchEventType.added, some p⟩,
         ⟨WatchEventType.added, some q⟩]).existingPods q.uid).isSome = true) ∧
    ((processDelivered marshalTotal
        (processEvents marshalTotal emptyMonitorState
          [⟨WatchEventType.added, some p⟩,
           ⟨WatchEventType.added, some q⟩])
        ⟨WatchEventType.deleted, some p⟩).podTracker = []) := by
  have hqp : ¬(p.uid = q.uid) := huid
  simp [processEvents, processDelivered, logEvent, marshalTotal, mkPodEvent,
    assocLookup, assocUpsert, assocRemove, hqp, hname]

/-- Witness for the amended Claim C6, on the two sample pods sharing the
name "shared-name". -/
theorem claim_tracker_keyed_by_name_witness :
    ((processEvents marshalTotal emptyMonitorState
        [⟨WatchEventType.added, some podN1⟩,
         ⟨WatchEventType.added, some podN2⟩]).podTracker
      = [(podN2.name, podN2.status.phase)]) ∧
    ((assocLookup (processEvents marshalTotal emptyMonitorState
        [⟨WatchEventType.added, some podN1⟩,
         ⟨WatchEventType.added, some podN2⟩]).existingPods podN1.uid).isSome = true) ∧
    ((assocLookup (processEvents marshalTotal emptyMonitorState
        [⟨WatchEventType.added, some podN1⟩,
         ⟨WatchEventType.added, some podN2⟩]).existingPods podN2.uid).isSome = true) ∧
    ((processDelivered marshalTotal
        (processEvents marshalTotal emptyMonitorState
          [⟨WatchEventType.added, some podN1⟩,
           ⟨WatchEventType.added, some podN2⟩])
        ⟨WatchEventType.deleted, some podN1⟩).podTracker = []) :=
  claim_tracker_keyed_by_name podN1 podN2 (by decide) (by decide)

/-- Generalized seeding lemma: folding upserts over the listed pods makes
every listed pod's UID present (starting from any accumulator). -/
theorem seedSnapshot_aux (items : List Pod) (acc : List (String × Pod))
    (u : String)
    (h : (assocLookup acc u).isSome = true ∨ ∃ p ∈ items, p.uid = u) :
    (assocLookup (items.foldl (fun m p => assocUpsert m p.uid p) acc)
      u).isSome = true := by
  induction items generalizing acc with
  | nil =>
      rcases h with h | ⟨p, hp, _⟩
      · exact h
      · exact absurd hp (List.not_mem_nil p)
  | cons q rest ih =>
      apply ih
      rcases h with h | ⟨p, hp, hu⟩
      · left
        show (assocLookup (assocUpsert acc q.uid q) u).isSome = true
        by_cases hq : q.uid = u
        · rw [hq, assocLookup_upsert_self]; rfl
        · rw [assocLookup_upsert_other _ _ _ _ (fun hh => hq hh.symm)]
          exact h
      · rcases List.mem_cons.mp hp with rfl | hp2
        · left
          show (assocLookup (assocUpsert acc p.uid p) u).isSome = true
          rw [hu, assocLookup_upsert_self]; rfl
        · right
          exact ⟨p, hp2, hu⟩

theorem seedSnapshot_mem (items : List Pod) (p : Pod) (hp : p ∈ items) :
    (assocLookup (seedSnapshot items) p.uid).isSome = true :=
  seedSnapshot_aux items [] p.uid (Or.inr ⟨p, hp, rfl⟩)

/-- Claim C7 as stated is false: when the List returns resource version
"12345", the options the code passes to Watch carry resource version ""
(the same `listOptions` value used for the List, never updated), not
"12345". -/
theorem claim_session_options_counterexample :
    (watchOptions "default" ⟨[], "12345"⟩).resourceVersion = "" ∧
    (watchOptions "default" ⟨[], "12345"⟩).resourceVersion ≠ "12345" := by
  constructor <;> decide

/-- Claim C7 (amended): every session opening performs a full List whose
items seed the snapshot map (each listed pod is stored under its UID)
and then registers the Watch with the SAME options value used for the
List; that value's resourceVersion field is the empty string whatever
the List returned, so the resource version returned by the List is not
carried and the claimed no-event-gap guarantee is not established. -/
theorem claim_session_options (ns : String) (lr : ListResult) :
    (∀ p ∈ lr.items,
      (assocLookup (seedSnapshot lr.items) p.uid).isSome = true) ∧
    watchOptions ns lr = sessionListOptions ns ∧
    (watchOptions ns lr).resourceVersion = "" := by
  refine ⟨fun p hp => seedSnapshot_mem lr.items p hp, rfl, ?_⟩
  unfold watchOptions sessionListOptions
  by_cases h : ns = "" <;> simp [h, fieldsEverythingString]

/-- Witness for the amended Claim C7: a List result with one pod and
resource version "12345". -/
theorem claim_session_options_witness :
    (assocLookup (seedSnapshot [podA]) podA.uid).isSome = true ∧
    (watchOptions "default" ⟨[podA], "12345"⟩).resourceVersion = "" :=
  ⟨(claim_session_options "default" ⟨[podA], "12345"⟩).1 podA
      (List.mem_singleton.mpr rfl),
   (claim_session_options "default" ⟨[podA], "12345"⟩).2.2⟩

/-- Claim C8 as stated is false: an empty NAMESPACE environment value
does not make the controller watch all namespaces — `main` replaces the
empty value with the literal default "devops-case-study". -/
theorem claim_env_config_counterexample :
    resolveNamespace (fun _ => "") = "devops-case-study" ∧
    resolveNamespace (fun _ => "") ≠ "" := by
  constructor <;> decide

/-- Claim C8 (amended): the namespace and metrics bind address are read
from the NAMESPACE and METRICS_ADDR environment variables, with empty
values replaced by the defaults "devops-case-study" and ":8080" — so
the watched namespace is never the empty all-namespaces value — while
the maximum reconnect attempts are the hard-coded constant 10, read
from no environment variable. -/
theorem claim_env_config (env : String → String) :
    resolveNamespace env =
      (if env "NAMESPACE" = "" then "devops-case-study"
       else env "NAMESPACE") ∧
    resolveNamespace env ≠ "" ∧
    resolveMetricsAddr env =
      (if env "METRICS_ADDR" = "" then ":8080" else env "METRICS_ADDR") ∧
    monitorMaxRetries = 10 := by
  refine ⟨rfl, ?_, rfl, rfl⟩
  unfold resolveNamespace
  by_cases h : env "NAMESPACE" = "" <;> simp [h]

/-- Claim C9: an ADDED notification whose pod UID is already a key of
the snapshot map is skipped entirely: no log record is emitted, no
metric, phase-tracker or timestamp update is performed, and the
snapshot map — including the existing entry for that identity — is
unchanged. -/
theorem claim_added_existing_noop (marshal : Marshal) (s : MonitorState)
    (p : Pod) (h : (assocLookup s.existingPods p.uid).isSome = true) :
    (processDelivered marshal s
      ⟨WatchEventType.added, some p⟩).existingPods = s.existingPods ∧
    (processDelivered marshal s
      ⟨WatchEventType.added, some p⟩).podTracker = s.podTracker ∧
    (processDelivered marshal s
      ⟨WatchEventType.added, some p⟩).activePods = s.activePods ∧
    (processDelivered marshal s
      ⟨WatchEventType.added, some p⟩).eventsTotal = s.eventsTotal ∧
    (processDelivered marshal s
      ⟨WatchEventType.added, some p⟩).lastEvent = s.lastEvent ∧
    (processDelivered marshal s
      ⟨WatchEventType.added, some p⟩).log = s.log := by
  simp [processDelivered, h]

/-- Witness for Claim C9: re-adding pod "u1" to a state already holding
it changes none of the observable state. -/
theorem claim_added_existing_noop_witness :
    (processDelivered marshalTotal
      { emptyMonitorState with existingPods := [("u1", podA)] }
      ⟨WatchEventType.added, some podA⟩).existingPods =
        ({ emptyMonitorState with
            existingPods := [("u1", podA)] } : MonitorState).existingPods ∧
    (processDelivered marshalTotal
      { emptyMonitorState with existingPods := [("u1", podA)] }
      ⟨WatchEventType.added, some podA⟩).podTracker =
        ({ emptyMonitorState with
            existingPods := [("u1", podA)] } : MonitorState).podTracker ∧
    (processDelivered marshalTotal
      { emptyMonitorState with existingPods := [("u1", podA)] }
      ⟨WatchEventType.added, some podA⟩).activePods =
        ({ emptyMonitorState with
            existingPods := [("u1", podA)] } : MonitorState).activePods ∧
    (processDelivered marshalTotal
      { emptyMonitorState with existingPods := [("u1", podA)] }
      ⟨WatchEventType.added, some podA⟩).eventsTotal =
        ({ emptyMonitorState with
            existingPods := [("u1", podA)] } : MonitorState).eventsTotal ∧
    (processDelivered marshalTotal
      { emptyMonitorState with existingPods := [("u1", podA)] }
      ⟨WatchEventType.added, some podA⟩).lastEvent =
        ({ emptyMonitorState with
            existingPods := [("u1", podA)] } : MonitorState).lastEvent ∧
    (processDelivered marshalTotal
      { emptyMonitorState with existingPods := [("u1", podA)] }
      ⟨WatchEventType.added, some podA⟩).log =
        ({ emptyMonitorState with
            existingPods := [("u1", podA)] } : MonitorState).log :=
  claim_added_existing_noop marshalTotal
    { emptyMonitorState with existingPods := [("u1", podA)] } podA (by decide)

/-- Claim C10: when JSON serialization of the event fails, `logEvent`
appends exactly the failure line and returns: neither the structured
record nor the human-readable line is written, and the events counter,
last-event timestamp, phase tracker and active-pods gauges are all left
unchanged. -/
theorem claim_marshal_failure_frame (marshal : Marshal) (s : MonitorState)
    (ev : PodEvent) (h : marshal ev = none) :
    logEvent marshal s ev =
      { s with log := s.log ++ ["Failed to marshal event to JSON"] } := by
  unfold logEvent
  rw [h]

/-- Witness for Claim C10: a failing marshaller on a sample ADDED event. -/
theorem claim_marshal_failure_frame_witness :
    logEvent (fun _ => none) emptyMonitorState
      (mkPodEvent "ADDED" podA "New pod created" "") =
      { emptyMonitorState with
          log := emptyMonitorState.log ++ ["Failed to marshal event to JSON"] } :=
  claim_marshal_failure_frame (fun _ => none) emptyMonitorState
    (mkPodEvent "ADDED" podA "New pod created" "") rfl

end PodMonitor
